import Mathlib

/-!
Verification of the book_management_system repository: a React client
(`src/unnamed/part_000`, the `App` component) talking to an Express server
(`src/Backend/server.js`) over `/api/books`.

The client component is embedded as pure state-transition functions: each
async handler is a function from the component state and the network
outcome to the next state, and the payload it would send is exposed as a
separate function so that "no request is sent" is statable.
-/

/-- A book record as returned by the server and held in the client `books`
state; records are keyed by the Mongo-style `_id` field (the client filters
deletions by `book._id`). -/
structure Book where
  _id : String
  title : String
  author : String
  description : String
  deriving DecidableEq, Repr

/-- The `newBook` draft state of the client: `{title, author, description}`
strings being edited. -/
structure Draft where
  title : String
  author : String
  description : String
  deriving DecidableEq, Repr

/-- The initial draft used by `useState` and by the reset after a
successful add: all three fields empty. -/
def emptyDraft : Draft := { title := "", author := "", description := "" }

/-- The client component state: `books`, `newBook`, `loading`, `error`
(the four `useState` hooks of `App`). -/
structure AppState where
  books : List Book
  newBook : Draft
  loading : Bool
  error : String
  deriving DecidableEq, Repr

/-- The initial component state: empty book list, empty draft, not
loading, empty error message. -/
def initState : AppState :=
  { books := [], newBook := emptyDraft, loading := false, error := "" }

/-- JavaScript `String.prototype.trim()`: removes leading and trailing
whitespace. Modelled by dropping whitespace characters from both ends of
the character list (structurally, so that it evaluates on literals). -/
def jsTrim (s : String) : String :=
  ⟨((s.data.dropWhile Char.isWhitespace).reverse.dropWhile
      Char.isWhitespace).reverse⟩

/-- The value of the JavaScript expression
`err.response?.data?.message || fallback`: the optional chain yields the
`message` field when the error response carried one (`none` models any
break in the chain — no response, no body, no `message` field), and `||`
falls back when that value is absent or the empty string (empty strings
are falsy in JavaScript). -/
def errMessageOr (msg : Option String) (fallback : String) : String :=
  match msg with
  | some m => if m = "" then fallback else m
  | none => fallback

/-- Outcome of the `axios.get` in `fetchBooks`: either the response data
(a list of books) or an error with an optional `message` body field. -/
inductive GetResult where
  | ok (data : List Book)
  | err (msg : Option String)

/-- Outcome of the `axios.post` in `handleAddBook`: either the created
record returned by the server or an error with an optional `message`. -/
inductive PostResult where
  | ok (data : Book)
  | err (msg : Option String)

/-- Outcome of the `axios.delete` in `handleDeleteBook`: success carries
no data the handler uses; failure carries an optional `message`. -/
inductive DeleteResult where
  | ok
  | err (msg : Option String)

/-- The component state while the `fetchBooks` request is in flight:
`setLoading(true)` has run, nothing else has changed yet. -/
def fetchBooksDuring (s : AppState) : AppState := { s with loading := true }

/-- The `fetchBooks` effect run on mount: `setLoading(true)`, await the
GET; on success `setBooks(response.data)` and `setError('')`; on failure
`setError(err.response?.data?.message || 'Failed to load books')`; in
`finally`, `setLoading(false)`. -/
def fetchBooks (s : AppState) (r : GetResult) : AppState :=
  let s1 := fetchBooksDuring s
  let s2 := match r with
    | .ok data => { s1 with books := data, error := "" }
    | .err msg => { s1 with error := errMessageOr msg "Failed to load books" }
  { s2 with loading := false }

/-- `handleInputChange`: the spread-update `{...newBook, [name]: value}`
restricted to the three field names the form uses (any other computed key
would fall outside the `Draft` record and is not exercised by the form). -/
def setDraftField (d : Draft) (name value : String) : Draft :=
  if name = "title" then { d with title := value }
  else if name = "author" then { d with author := value }
  else if name = "description" then { d with description := value }
  else d

/-- The `handleInputChange` handler: replaces `newBook` with the draft
updated at the event's `name` with the event's `value`; touches no other
state and performs no network call. -/
def handleInputChange (s : AppState) (name value : String) : AppState :=
  { s with newBook := setDraftField s.newBook name value }

/-- The guard condition of `handleAddBook`:
`newBook.title.trim() === '' || newBook.author.trim() === ''`. -/
def addBookGuardFails (d : Draft) : Prop :=
  jsTrim d.title = "" ∨ jsTrim d.author = ""

instance (d : Draft) : Decidable (addBookGuardFails d) :=
  inferInstanceAs (Decidable (jsTrim d.title = "" ∨ jsTrim d.author = ""))

/-- The body `handleAddBook` sends with `axios.post`: `none` when the
guard rejects the draft (the handler returns before the post), otherwise
the draft `newBook` itself, verbatim — the handler never trims the values
it sends. -/
def addBookRequestPayload (s : AppState) : Option Draft :=
  if addBookGuardFails s.newBook then none else some s.newBook

/-- The component state while the `handleAddBook` POST is in flight
(reached only when the guard passed): `setLoading(true)` has run. -/
def handleAddBookDuring (s : AppState) : AppState := { s with loading := true }

/-- The `handleAddBook` handler: if `title` or `author` trims to empty,
`setError('Title and Author are required fields')` and return (no
request). Otherwise `setLoading(true)`, POST the draft; on success append
`response.data` to `books`, reset `newBook` to empty fields and clear
`error`; on failure `setError(err.response?.data?.message || 'Failed to
add book')`; in `finally`, `setLoading(false)`. -/
def handleAddBook (s : AppState) (r : PostResult) : AppState :=
  if addBookGuardFails s.newBook then
    { s with error := "Title and Author are required fields" }
  else
    let s1 := handleAddBookDuring s
    let s2 := match r with
      | .ok data =>
          { s1 with books := s1.books ++ [data], newBook := emptyDraft,
                    error := "" }
      | .err msg => { s1 with error := errMessageOr msg "Failed to add book" }
    { s2 with loading := false }

/-- The component state while the `handleDeleteBook` DELETE is in flight:
`setLoading(true)` has run. -/
def handleDeleteBookDuring (s : AppState) : AppState := { s with loading := true }

/-- The `handleDeleteBook` handler: `setLoading(true)`, DELETE by `id`; on
success `setBooks(books.filter(book => book._id !== id))` and clear
`error`; on failure `setError(err.response?.data?.message || 'Failed to
delete book')`; in `finally`, `setLoading(false)`. -/
def handleDeleteBook (s : AppState) (id : String) (r : DeleteResult) : AppState :=
  let s1 := handleDeleteBookDuring s
  let s2 := match r with
    | .ok => { s1 with books := s1.books.filter (fun book => book._id != id),
                       error := "" }
    | .err msg => { s1 with error := errMessageOr msg "Failed to delete book" }
  { s2 with loading := false }

/-- The axios request interceptor: reads `localStorage.getItem('token')`
(`none` when no token key is stored) and, when the stored value is truthy
(a non-empty string), sets `config.headers.Authorization` to
`Bearer <token>`; otherwise attaches no Authorization header. The result
is the Authorization header attached to every outgoing request. -/
def interceptorAuth (token : Option String) : Option String :=
  match token with
  | some t => if t = "" then none else some ("Bearer " ++ t)
  | none => none

/-- A required request field as received by the server: `none` when the
JSON body omits it. A field is missing or blank when it is absent or
trims to the empty string. -/
def fieldMissingOrBlank (f : Option String) : Bool :=
  match f with
  | none => true
  | some s => jsTrim s == ""

/-- Result of a server route handler: the store contents after the
operation, the HTTP status, the response record (for create), and the
machine-readable `message` of an error body. -/
structure RouteOutcome where
  store : List Book
  status : Nat
  created : Option Book
  message : Option String
  deriving DecidableEq, Repr

/-- Modelled from the spec: the `POST /api/books` route handler lives in
`Backend/routes/books.js`, which is not part of the provided sources
(`server.js` only mounts it at `/api/books`). Per the spec, create with
body `{title, author, description?}` returns 201 with the created record
carrying a store-assigned `id`, and an implementation MUST reject
create-requests whose `title` or `author` is missing or empty or
whitespace-only with a 4xx response and a machine-readable message, with
no record created. `freshId` models the store-assigned identifier. -/
def serverCreate (store : List Book) (title author description : Option String)
    (freshId : String) : RouteOutcome :=
  if fieldMissingOrBlank title || fieldMissingOrBlank author then
    { store := store, status := 400, created := none,
      message := some "Title and author are required" }
  else
    let b : Book := { _id := freshId, title := title.getD "",
                      author := author.getD "",
                      description := description.getD "" }
    { store := store ++ [b], status := 201, created := some b, message := none }

/-- Modelled from the spec: the `DELETE /api/books/:id` route handler in
`Backend/routes/books.js`, not part of the provided sources. Per the
spec, deleting an existing `id` removes that record and returns 200/204;
deleting a nonexistent `id` leaves the record set unchanged and returns
404 with a not-found message. -/
def serverDelete (store : List Book) (id : String) : RouteOutcome :=
  if store.any (fun b => b._id == id) then
    { store := store.filter (fun b => b._id != id), status := 200,
      created := none, message := none }
  else
    { store := store, status := 404, created := none,
      message := some "Book not found" }

/-- A sample persisted record used to instantiate universally quantified
theorems at concrete inputs. -/
def sampleBook : Book :=
  { _id := "b1", title := "Dune", author := "Herbert", description := "" }

/-- A sample valid draft (non-empty `title` and `author`). -/
def sampleDraft : Draft :=
  { title := "Dune", author := "Herbert", description := "classic" }

/-- A sample draft whose `title` and `author` are non-empty only after
surrounding whitespace is ignored. -/
def paddedDraft : Draft :=
  { title := " Dune ", author := " Herbert ", description := "" }

/-- `errMessageOr` never yields the empty string when its fallback is
non-empty: a present non-empty message is returned as-is, and an absent
or empty message yields the fallback. -/
theorem errMessageOr_ne_empty (msg : Option String) (fb : String) (h : fb ≠ "") :
    errMessageOr msg fb ≠ "" := by
  cases msg with
  | none => exact h
  | some m =>
      by_cases hm : m = ""
      · simp only [errMessageOr, if_pos hm]; exact h
      · simp only [errMessageOr, if_neg hm]; exact hm

/-- A state whose draft has a whitespace-only title, used to exercise the
client-side guard. -/
def blankTitleState : AppState :=
  { initState with newBook := { title := "  ", author := "A", description := "" } }

/-- A state holding the sample valid draft. -/
def validDraftState : AppState := { initState with newBook := sampleDraft }

/-- A state whose book list holds exactly the sample record. -/
def oneBookState : AppState := { initState with books := [sampleBook] }

/-- C1: every create request whose `title` or `author` is missing, empty,
or whitespace-only is rejected by the server with a 4xx status and a
machine-readable message, and the store is unchanged — no record is
created. -/
theorem serverCreate_rejects_missing_fields (store : List Book)
    (title author description : Option String) (fid : String)
    (h : fieldMissingOrBlank title = true ∨ fieldMissingOrBlank author = true) :
    (serverCreate store title author description fid).store = store ∧
    400 ≤ (serverCreate store title author description fid).status ∧
    (serverCreate store title author description fid).status < 500 ∧
    (serverCreate store title author description fid).message.isSome = true ∧
    (serverCreate store title author description fid).created = none := by
  have hb : (fieldMissingOrBlank title || fieldMissingOrBlank author) = true := by
    rcases h with h | h <;> simp [h]
  simp [serverCreate, hb]

/-- Witness for C1: creating with whitespace-only title "   " and author
"X" against the empty store is rejected with status 400, a message, and
an unchanged store. -/
theorem serverCreate_rejects_missing_fields_witness :
    (serverCreate [] (some "   ") (some "X") none "id1").store = [] ∧
    400 ≤ (serverCreate [] (some "   ") (some "X") none "id1").status ∧
    (serverCreate [] (some "   ") (some "X") none "id1").status < 500 ∧
    (serverCreate [] (some "   ") (some "X") none "id1").message.isSome = true ∧
    (serverCreate [] (some "   ") (some "X") none "id1").created = none :=
  serverCreate_rejects_missing_fields [] (some "   ") (some "X") none "id1"
    (Or.inl (by decide))

/-- C2: when the draft's `title` or `author` is empty or whitespace-only
after trimming, submitting the form sends no request and produces the
state with only `error` set to the required-fields message — `books`,
the draft and `loading` are untouched, whatever the would-be outcome. -/
theorem handleAddBook_guard_rejects (s : AppState) (r : PostResult)
    (h : addBookGuardFails s.newBook) :
    addBookRequestPayload s = none ∧
    handleAddBook s r =
      { s with error := "Title and Author are required fields" } := by
  constructor
  · simp [addBookRequestPayload, h]
  · simp [handleAddBook, h]

/-- Witness for C2: a draft with title "  " (whitespace-only) is rejected
locally — no payload, error set, everything else unchanged. -/
theorem handleAddBook_guard_rejects_witness :
    addBookRequestPayload blankTitleState = none ∧
    handleAddBook blankTitleState (PostResult.ok sampleBook) =
      { blankTitleState with error := "Title and Author are required fields" } :=
  handleAddBook_guard_rejects blankTitleState (PostResult.ok sampleBook)
    (Or.inl (by decide))

/-- C3: with a valid draft (trimmed `title` and `author` non-empty), a
successful create appends the server-returned record to `books`, resets
the draft to empty fields and clears the error; a failed create sets a
non-empty error and leaves `books` and the draft unchanged. -/
theorem handleAddBook_outcomes (s : AppState) (b : Book) (msg : Option String)
    (h : ¬ addBookGuardFails s.newBook) :
    (handleAddBook s (PostResult.ok b)).books = s.books ++ [b] ∧
    (handleAddBook s (PostResult.ok b)).newBook = emptyDraft ∧
    (handleAddBook s (PostResult.ok b)).error = "" ∧
    (handleAddBook s (PostResult.err msg)).error ≠ "" ∧
    (handleAddBook s (PostResult.err msg)).books = s.books ∧
    (handleAddBook s (PostResult.err msg)).newBook = s.newBook := by
  refine ⟨?_, ?_, ?_, ?_, ?_, ?_⟩
  · simp only [handleAddBook, handleAddBookDuring, if_neg h]
  · simp only [handleAddBook, handleAddBookDuring, if_neg h]
  · simp only [handleAddBook, handleAddBookDuring, if_neg h]
  · simp only [handleAddBook, handleAddBookDuring, if_neg h]
    exact errMessageOr_ne_empty msg _ (by decide)
  · simp only [handleAddBook, handleAddBookDuring, if_neg h]
  · simp only [handleAddBook, handleAddBookDuring, if_neg h]

/-- Witness for C3: the sample valid draft, a successful create with the
sample record and a failed create with no message body. -/
theorem handleAddBook_outcomes_witness :
    (handleAddBook validDraftState (PostResult.ok sampleBook)).books
      = validDraftState.books ++ [sampleBook] ∧
    (handleAddBook validDraftState (PostResult.ok sampleBook)).newBook
      = emptyDraft ∧
    (handleAddBook validDraftState (PostResult.ok sampleBook)).error = "" ∧
    (handleAddBook validDraftState (PostResult.err none)).error ≠ "" ∧
    (handleAddBook validDraftState (PostResult.err none)).books
      = validDraftState.books ∧
    (handleAddBook validDraftState (PostResult.err none)).newBook
      = validDraftState.newBook :=
  handleAddBook_outcomes validDraftState sampleBook none (by decide)

/-- C4: a successful delete removes exactly the records whose `_id`
matches the requested `id` from `books` (membership-wise) and clears the
error; a failed delete sets a non-empty error and leaves `books`
unchanged — no optimistic removal. -/
theorem handleDeleteBook_outcomes (s : AppState) (id : String)
    (msg : Option String) (b : Book) :
    (b ∈ (handleDeleteBook s id DeleteResult.ok).books ↔
        b ∈ s.books ∧ b._id ≠ id) ∧
    (handleDeleteBook s id DeleteResult.ok).error = "" ∧
    (handleDeleteBook s id (DeleteResult.err msg)).books = s.books ∧
    (handleDeleteBook s id (DeleteResult.err msg)).error ≠ "" := by
  refine ⟨?_, rfl, rfl, ?_⟩
  · simp [handleDeleteBook, handleDeleteBookDuring, List.mem_filter,
      bne_iff_ne]
  · exact errMessageOr_ne_empty msg _ (by decide)

/-- Witness for C4: deleting id "b1" from a one-record list removes the
record on success; a failed delete leaves the list intact with a
non-empty error. -/
theorem handleDeleteBook_outcomes_witness :
    (sampleBook ∈ (handleDeleteBook oneBookState "b1" DeleteResult.ok).books ↔
        sampleBook ∈ oneBookState.books ∧ sampleBook._id ≠ "b1") ∧
    (handleDeleteBook oneBookState "b1" DeleteResult.ok).error = "" ∧
    (handleDeleteBook oneBookState "b1" (DeleteResult.err none)).books
      = oneBookState.books ∧
    (handleDeleteBook oneBookState "b1" (DeleteResult.err none)).error ≠ "" :=
  handleDeleteBook_outcomes oneBookState "b1" none sampleBook

/-- C5 counterexample: a load failure whose error body carries a present
but empty `message` ("") does not set `errorMessage` to that message —
JavaScript `||` treats "" as falsy, so the generic fallback is used
instead. -/
theorem fetchBooks_present_empty_message_counterexample :
    (fetchBooks initState (GetResult.err (some ""))).error
      = "Failed to load books" ∧
    "Failed to load books" ≠ "" := by decide

/-- C5 (amended): every failing load, create, or delete sets
`errorMessage` to the error body's `message` when it is present and
non-empty, otherwise (absent or empty message) to the operation's
generic non-empty fallback, replacing any prior value; every successful
load, create, or delete clears `errorMessage`. The create cases assume
the guard passed, i.e. a request was actually sent. -/
theorem client_error_message_policy (s : AppState) (m : String) (hm : m ≠ "")
    (msg0 : Option String) (h0 : msg0 = none ∨ msg0 = some "")
    (bs : List Book) (b : Book) (id : String)
    (hg : ¬ addBookGuardFails s.newBook) :
    (fetchBooks s (GetResult.err (some m))).error = m ∧
    (handleAddBook s (PostResult.err (some m))).error = m ∧
    (handleDeleteBook s id (DeleteResult.err (some m))).error = m ∧
    (fetchBooks s (GetResult.err msg0)).error = "Failed to load books" ∧
    (handleAddBook s (PostResult.err msg0)).error = "Failed to add book" ∧
    (handleDeleteBook s id (DeleteResult.err msg0)).error
      = "Failed to delete book" ∧
    "Failed to load books" ≠ "" ∧
    "Failed to add book" ≠ "" ∧
    "Failed to delete book" ≠ "" ∧
    (fetchBooks s (GetResult.ok bs)).error = "" ∧
    (handleAddBook s (PostResult.ok b)).error = "" ∧
    (handleDeleteBook s id DeleteResult.ok).error = "" := by
  have he : ∀ fb : String, errMessageOr (some m) fb = m := by
    intro fb; simp only [errMessageOr, if_neg hm]
  have he0 : ∀ fb : String, errMessageOr msg0 fb = fb := by
    intro fb; rcases h0 with h0 | h0 <;> simp [errMessageOr, h0]
  refine ⟨?_, ?_, ?_, ?_, ?_, ?_, by decide, by decide, by decide, ?_, ?_, ?_⟩
  · simp [fetchBooks, fetchBooksDuring, he]
  · simp only [handleAddBook, handleAddBookDuring, if_neg hg]; exact he _
  · simp [handleDeleteBook, handleDeleteBookDuring, he]
  · simp [fetchBooks, fetchBooksDuring, he0]
  · simp only [handleAddBook, handleAddBookDuring, if_neg hg]; exact he0 _
  · simp [handleDeleteBook, handleDeleteBookDuring, he0]
  · rfl
  · simp only [handleAddBook, handleAddBookDuring, if_neg hg]
  · rfl

/-- Witness for C5 (amended): the valid sample draft, message "boom", an
absent message body, and concrete success payloads. -/
theorem client_error_message_policy_witness :
    (fetchBooks validDraftState (GetResult.err (some "boom"))).error
      = "boom" ∧
    (handleAddBook validDraftState (PostResult.err (some "boom"))).error
      = "boom" ∧
    (handleDeleteBook validDraftState "b1"
        (DeleteResult.err (some "boom"))).error = "boom" ∧
    (fetchBooks validDraftState (GetResult.err none)).error
      = "Failed to load books" ∧
    (handleAddBook validDraftState (PostResult.err none)).error
      = "Failed to add book" ∧
    (handleDeleteBook validDraftState "b1" (DeleteResult.err none)).error
      = "Failed to delete book" ∧
    "Failed to load books" ≠ "" ∧
    "Failed to add book" ≠ "" ∧
    "Failed to delete book" ≠ "" ∧
    (fetchBooks validDraftState (GetResult.ok [])).error = "" ∧
    (handleAddBook validDraftState (PostResult.ok sampleBook)).error = "" ∧
    (handleDeleteBook validDraftState "b1" DeleteResult.ok).error = "" :=
  client_error_message_policy validDraftState "boom" (by decide) none
    (Or.inl rfl) [] sampleBook "b1" (by decide)

/-- C6: an input event named `title`, `author` or `description` updates
exactly that draft field to the event's value; the resulting state
equals the prior state with only that one field of `newBook` replaced,
so the other draft fields, `books`, `loading` and `error` are unchanged,
and `handleInputChange` involves no network call. -/
theorem handleInputChange_frame (s : AppState) (v : String) :
    handleInputChange s "title" v
      = { s with newBook := { s.newBook with title := v } } ∧
    handleInputChange s "author" v
      = { s with newBook := { s.newBook with author := v } } ∧
    handleInputChange s "description" v
      = { s with newBook := { s.newBook with description := v } } := by
  refine ⟨?_, ?_, ?_⟩ <;>
    simp [handleInputChange, setDraftField]

/-- C7 counterexample: a token that is present in client storage but
equal to the empty string yields no Authorization header at all (the
truthiness check fails), contradicting "if a token is present then the
request carries Bearer followed by that token". -/
theorem interceptorAuth_empty_token_counterexample :
    interceptorAuth (some "") = none ∧
    some ("Bearer " ++ "") ≠ (none : Option String) := by decide

/-- C7 (amended): when a non-empty token is stored, every outgoing
request carries `Authorization: Bearer <token>`; when no token is stored
or the stored token is the empty string (falsy in JavaScript), no
Authorization header is attached. -/
theorem interceptorAuth_bearer (t : String) (h : t ≠ "") :
    interceptorAuth (some t) = some ("Bearer " ++ t) ∧
    interceptorAuth none = none ∧
    interceptorAuth (some "") = none := by
  refine ⟨?_, rfl, rfl⟩
  simp only [interceptorAuth, if_neg h]

/-- Witness for C7 (amended): the concrete token "tok123". -/
theorem interceptorAuth_bearer_witness :
    interceptorAuth (some "tok123") = some ("Bearer " ++ "tok123") ∧
    interceptorAuth none = none ∧
    interceptorAuth (some "") = none :=
  interceptorAuth_bearer "tok123" (by decide)

/-- C8: deleting a nonexistent `id` leaves the record set unchanged and
responds 404 with a not-found message; deleting an existing `id`
responds 200. -/
theorem serverDelete_spec (store : List Book) (id : String) :
    (store.any (fun b => b._id == id) = false →
      (serverDelete store id).store = store ∧
      (serverDelete store id).status = 404 ∧
      (serverDelete store id).message.isSome = true) ∧
    (store.any (fun b => b._id == id) = true →
      (serverDelete store id).status = 200) := by
  constructor <;> intro h <;> simp [serverDelete, h]

/-- Witness for C8: against a store holding only the sample record (_id
"b1"), deleting "nope" changes nothing and yields 404; deleting "b1"
yields 200. -/
theorem serverDelete_spec_witness :
    ((serverDelete [sampleBook] "nope").store = [sampleBook] ∧
     (serverDelete [sampleBook] "nope").status = 404 ∧
     (serverDelete [sampleBook] "nope").message.isSome = true) ∧
    (serverDelete [sampleBook] "b1").status = 200 :=
  ⟨(serverDelete_spec [sampleBook] "nope").1 (by decide),
   (serverDelete_spec [sampleBook] "b1").2 (by decide)⟩

/-- C9: for each of the three network operations, `loading` is true in
the in-flight state (right after `setLoading(true)` runs) and false once
the handler completes, on both the success and the failure outcome; for
the create this holds whenever the guard passed, i.e. a request was
actually sent. -/
theorem loading_during_and_after (s : AppState) (gr : GetResult)
    (pr : PostResult) (dr : DeleteResult) (id : String)
    (hg : ¬ addBookGuardFails s.newBook) :
    (fetchBooksDuring s).loading = true ∧
    (fetchBooks s gr).loading = false ∧
    (handleAddBookDuring s).loading = true ∧
    (handleAddBook s pr).loading = false ∧
    (handleDeleteBookDuring s).loading = true ∧
    (handleDeleteBook s id dr).loading = false := by
  refine ⟨rfl, ?_, rfl, ?_, rfl, ?_⟩
  · cases gr <;> rfl
  · simp only [handleAddBook, handleAddBookDuring, if_neg hg]
  · cases dr <;> rfl

/-- Witness for C9: the valid sample draft and concrete outcomes for all
three operations. -/
theorem loading_during_and_after_witness :
    (fetchBooksDuring validDraftState).loading = true ∧
    (fetchBooks validDraftState (GetResult.ok [])).loading = false ∧
    (handleAddBookDuring validDraftState).loading = true ∧
    (handleAddBook validDraftState (PostResult.ok sampleBook)).loading
      = false ∧
    (handleDeleteBookDuring validDraftState).loading = true ∧
    (handleDeleteBook validDraftState "b1" DeleteResult.ok).loading = false :=
  loading_during_and_after validDraftState (GetResult.ok [])
    (PostResult.ok sampleBook) DeleteResult.ok "b1" (by decide)

/-- C10: when the trimmed `title` and `author` are non-empty the guard
passes and the POST body is the draft itself, untrimmed — trimming is
used only for the emptiness check, never applied to the values sent. -/
theorem addBook_payload_verbatim (s : AppState)
    (h : ¬ addBookGuardFails s.newBook) :
    addBookRequestPayload s = some s.newBook := by
  simp only [addBookRequestPayload, if_neg h]

/-- Witness for C10: a draft with title " Dune " and author " Herbert "
(non-empty only after the surrounding whitespace is trimmed) passes the
guard and is sent verbatim, padding included. -/
theorem addBook_payload_verbatim_witness :
    addBookRequestPayload { initState with newBook := paddedDraft }
      = some paddedDraft :=
  addBook_payload_verbatim { initState with newBook := paddedDraft }
    (by decide)
